import Mathlib

/-!
Verification of the pump.bot trading engine core against its specification.

The definitions below are a shallow embedding of the TypeScript source:
  * `src/pumpswap-bot.ts`       — orchestrator (discovery dedup, buy gates, monitoring tick)
  * `src/strategies/momentum.ts`, `src/strategies/liquidity.ts`, the volume strategy file,
    and the strategy manager — the three policies and their fail-closed dispatch
  * `src/pumpswap/pumpswap.ts`  — price read and position sizing helpers

JavaScript `number` values are modelled as rationals, `bigint` values as `Nat`
(all bigint quantities in the source are non-negative and bigint division
truncates toward zero, which on non-negative operands is `Nat` division).
External effects (RPC fetches, HTTP market data, transaction submission) are
passed in as explicit oracle values, matching the null/undefined conventions
of the source.
-/

set_option maxHeartbeats 1000000

namespace PumpBot

/-- Strategy tags, from `StrategyType` in `src/pumpswap/constants.ts`. -/
inductive StrategyType where
  | momentum
  | volume
  | liquidity
  | custom
deriving DecidableEq, Repr

/-- Pool snapshot, from `PumpSwapPoolInfo` in `src/pumpswap/types.ts`.
Public keys are modelled as strings; reserves and supply are `bigint`, hence `Nat`. -/
structure PumpSwapPoolInfo where
  poolId : String
  baseMint : String
  quoteMint : String
  baseDecimals : Nat
  quoteDecimals : Nat
  state : Nat
  baseReserve : Nat
  quoteReserve : Nat
  lpSupply : Nat
  createdAt : Int
deriving DecidableEq, Repr

/-- Open position record, from `Position` in `src/pumpswap/types.ts`. -/
structure Position where
  mint : String
  poolId : String
  entryPrice : ℚ
  amount : Nat
  buyValue : ℚ
  timestamp : Int
  strategy : StrategyType
deriving DecidableEq, Repr

/-! ## Pool registry (discovery dedup)

From `start` in `src/pumpswap-bot.ts`: the `onProgramAccountChange` callback keeps a
`Set<string>` named `existingPools`; a delivered pool id is processed exactly when it is
not yet a member, and it is inserted at that moment. -/

/-- One delivery of a pool id against the `existingPools` set: membership test
followed by insert, returning whether this delivery triggers processing together
with the updated set (sets are modelled as lists of keys). -/
def admitPool (existingPools : List String) (key : String) : Bool × List String :=
  if key ∈ existingPools then (false, existingPools)
  else (true, key :: existingPools)

/-- Run a whole sequence of discovery deliveries, recording for each delivered
pool id whether it triggered processing. -/
def runDiscovery : List String → List String → List (String × Bool)
  | _, [] => []
  | s, k :: rest => (k, (admitPool s k).1) :: runDiscovery (admitPool s k).2 rest

/-- The registry state after a sequence of deliveries. -/
def discoverState : List String → List String → List String
  | s, [] => s
  | s, k :: rest => discoverState (admitPool s k).2 rest

/-! ## Strategy policies

From `src/strategies/momentum.ts`, `src/strategies/liquidity.ts` and the volume
strategy source. Market-data lookups (`retrieveTokenValueByAddress`, the dexscreener
fetch) are supplied as oracle arguments: `none` models a null/undefined result. -/

/-- Market-data snapshot consulted by the volume strategy (`fetchTokenData` result). -/
structure TokenData where
  volume1h : ℚ
  volume6h : ℚ
  volume24h : ℚ
  liquidityUsd : ℚ
  priceChange1h : ℚ
deriving DecidableEq, Repr

/-- The price-history window update in `MomentumStrategy.shouldBuy`: push the observed
price, then keep only the `lookbackPeriod` most recent entries (`slice(-lookback)`). -/
def updateHistory (lookbackPeriod : Nat) (history : List ℚ) (currentPrice : ℚ) : List ℚ :=
  let h := history ++ [currentPrice]
  if lookbackPeriod < h.length then h.drop (h.length - lookbackPeriod) else h

/-- `MomentumStrategy.shouldBuy`: returns the buy decision together with the updated
price history for the token.  `currentPrice = none` models an unavailable price
(and a price of 0 is falsy in the source's `if (!currentPrice)` check). -/
def momentumShouldBuy (momentumThreshold : ℚ) (lookbackPeriod : Nat)
    (history : List ℚ) (currentPrice : Option ℚ) : Bool × List ℚ :=
  match currentPrice with
  | none => (false, history)
  | some c =>
    if c = 0 then (false, history)
    else
      let h := updateHistory lookbackPeriod history c
      if h.length < 2 then (false, h)
      else
        let oldestPrice := h.headD 0
        let momentum := (c - oldestPrice) / oldestPrice * 100
        if momentum ≥ momentumThreshold then
          let recentPrice := h.getD (h.length - 2) 0
          let recentMomentum := (c - recentPrice) / recentPrice * 100
          (if recentMomentum > 0 then true else false, h)
        else (false, h)

/-- Adjacent strict decrease, the `every((price, idx, arr) => idx === 0 || price < arr[idx-1])`
check of `MomentumStrategy.shouldSell`. -/
def strictlyDecr : List ℚ → Bool
  | [] => true
  | [_] => true
  | a :: b :: rest => if b < a then strictlyDecr (b :: rest) else false

/-- `MomentumStrategy.shouldSell`: take-profit, stop-loss, or a 3-point reversal while
still in profit; a falsy recorded buy value or a zero current price declines first. -/
def momentumShouldSell (takeProfitPercent stopLossPercent : ℚ)
    (priceHistory : List ℚ) (position : Position) (currentPrice : ℚ) : Bool :=
  if position.buyValue = 0 ∨ currentPrice = 0 then false
  else
    let priceChange := (currentPrice - position.buyValue) / position.buyValue * 100
    if priceChange ≥ takeProfitPercent then true
    else if priceChange ≤ -stopLossPercent then true
    else if 3 ≤ priceHistory.length
        ∧ strictlyDecr (priceHistory.drop (priceHistory.length - 3)) = true
        ∧ priceChange > 0 then true
    else false

/-- `MomentumStrategy.calculatePositionSize`: 1% of the quote reserve, floored at
0.01 SOL (10_000_000 lamports); there is no upper clamp. -/
def momentumCalculatePositionSize (quoteReserve : Nat) : Nat :=
  let maxPositionSize := quoteReserve / 100
  let minPositionSize := 10000000
  if maxPositionSize > minPositionSize then maxPositionSize else minPositionSize

/-- `VolumeStrategy.shouldSell`: thresholds plus volume-decline and high-volume sell-off
checks against the market-data oracle. -/
def volumeShouldSell (takeProfitPercent stopLossPercent volumeDeclineThreshold : ℚ)
    (position : Position) (currentPrice : ℚ) (tokenData : Option TokenData) : Bool :=
  if position.buyValue = 0 ∨ currentPrice = 0 then false
  else
    let priceChange := (currentPrice - position.buyValue) / position.buyValue * 100
    if priceChange ≥ takeProfitPercent then true
    else if priceChange ≤ -stopLossPercent then true
    else
      match tokenData with
      | some d =>
        let avgHourlyVolume6h := d.volume6h / 6
        if d.volume1h < avgHourlyVolume6h * (1 - volumeDeclineThreshold / 100) then true
        else if d.priceChange1h < -5 ∧ d.volume1h > avgHourlyVolume6h then true
        else false
      | none => false

/-- `VolumeStrategy.calculatePositionSize`: 2% of quote reserve, clamped to
[10_000_000, 1_000_000_000] lamports. -/
def volumeCalculatePositionSize (quoteReserve : Nat) : Nat :=
  let positionSize := quoteReserve / 50
  let minPositionSize := 10000000
  let maxPositionSize := 1000000000
  if positionSize < minPositionSize then minPositionSize
  else if positionSize > maxPositionSize then maxPositionSize
  else positionSize

/-- `LiquidityStrategy.shouldSell`: tighter thresholds plus the time-boxed exit after
one hour below 5% profit. -/
def liquidityShouldSell (takeProfitPercent stopLossPercent : ℚ)
    (position : Position) (currentPrice : ℚ) (now : Int) : Bool :=
  if position.buyValue = 0 ∨ currentPrice = 0 then false
  else
    let priceChange := (currentPrice - position.buyValue) / position.buyValue * 100
    if priceChange ≥ takeProfitPercent then true
    else if priceChange ≤ -stopLossPercent then true
    else if now - position.timestamp > 3600000 ∧ priceChange < 5 then true
    else false

/-- `LiquidityStrategy.calculatePositionSize`: 0.5% of quote reserve, clamped to
[10_000_000, 500_000_000] lamports. -/
def liquidityCalculatePositionSize (quoteReserve : Nat) : Nat :=
  let positionSize := quoteReserve / 200
  let minPositionSize := 10000000
  let maxPositionSize := 500000000
  if positionSize < minPositionSize then minPositionSize
  else if positionSize > maxPositionSize then maxPositionSize
  else positionSize

/-- `LiquidityStrategy.calculatePriceImpact`: integer constant-product output with a
0.25% fee (9975/10000), compared with the fee-free exact quote; bigint divisions
truncate, the final comparison is done in JS numbers (here: exactly, in ℚ). -/
def liquidityCalculatePriceImpact (amountIn reserveIn reserveOut : Nat) : ℚ :=
  if reserveIn = 0 ∨ reserveOut = 0 then 100
  else
    let amountInWithFee := amountIn * 9975
    let numerator := amountInWithFee * reserveOut
    let denominator := reserveIn * 10000 + amountInWithFee
    let amountOut := numerator / denominator
    let exactQuote := amountIn * reserveOut / reserveIn
    ((exactQuote : ℚ) - (amountOut : ℚ)) / (exactQuote : ℚ) * 100

/-! ## Strategy manager

From the `StrategyManager` class: every decision routed to the active policy is wrapped
in try/catch; a fault yields the fail-closed default.  A policy call that may throw is
modelled as an `Except` value. -/

/-- The `TradingStrategy` interface of `src/pumpswap/types.ts`, with each capability
allowed to raise (`Except.error`). -/
structure TradingStrategy where
  shouldBuy : PumpSwapPoolInfo → Except String Bool
  shouldSell : Position → ℚ → Except String Bool
  calculatePositionSize : PumpSwapPoolInfo → Except String Nat

/-- `StrategyManager.shouldBuy`: no active strategy or a raising policy yields false. -/
def managerShouldBuy (activeStrategy : Option TradingStrategy)
    (poolInfo : PumpSwapPoolInfo) : Bool :=
  match activeStrategy with
  | none => false
  | some s =>
    match s.shouldBuy poolInfo with
    | Except.ok decision => decision
    | Except.error _ => false

/-- `StrategyManager.shouldSell`: no active strategy or a raising policy yields false. -/
def managerShouldSell (activeStrategy : Option TradingStrategy)
    (position : Position) (currentPrice : ℚ) : Bool :=
  match activeStrategy with
  | none => false
  | some s =>
    match s.shouldSell position currentPrice with
    | Except.ok decision => decision
    | Except.error _ => false

/-- `StrategyManager.calculatePositionSize`: no active strategy or a raising policy
yields the default 10_000_000 lamports. -/
def managerCalculatePositionSize (activeStrategy : Option TradingStrategy)
    (poolInfo : PumpSwapPoolInfo) : Nat :=
  match activeStrategy with
  | none => 10000000
  | some s =>
    match s.calculatePositionSize poolInfo with
    | Except.ok size => size
    | Except.error _ => 10000000

/-- The built-in sizing dispatch of the bot: the three registered policies, with the
manager's 10_000_000 fallback when the active tag has no registered strategy. -/
def builtinPositionSize : StrategyType → Nat → Nat
  | StrategyType.momentum, q => momentumCalculatePositionSize q
  | StrategyType.volume, q => volumeCalculatePositionSize q
  | StrategyType.liquidity, q => liquidityCalculatePositionSize q
  | StrategyType.custom, _ => 10000000

/-! ## Price read

`PumpSwapClient.getCurrentPrice` in `src/pumpswap/pumpswap.ts`: re-fetch the pool; a
failed fetch or a zero base reserve yields 0, otherwise quote/base adjusted by the
decimal difference. -/

/-- `Math.pow(10, quoteDecimals - baseDecimals)` over an integer exponent. -/
def decimalAdjustment (quoteDecimals baseDecimals : Nat) : ℚ :=
  if baseDecimals ≤ quoteDecimals then (10 : ℚ) ^ (quoteDecimals - baseDecimals)
  else 1 / (10 : ℚ) ^ (baseDecimals - quoteDecimals)

/-- `PumpSwapClient.getCurrentPrice`, with the re-fetched pool passed in
(`none` models a failed `getPoolInfo`). -/
def getCurrentPrice (freshPoolInfo : Option PumpSwapPoolInfo) : ℚ :=
  match freshPoolInfo with
  | none => 0
  | some p =>
    if p.baseReserve = 0 then 0
    else ((p.quoteReserve : ℚ) / (p.baseReserve : ℚ))
      * decimalAdjustment p.quoteDecimals p.baseDecimals

/-! ## Buy-path gates

From `processPumpSwapPool` in `src/pumpswap-bot.ts` (after a successful pool-info
fetch): the snipe-list check, the open-position check, the concurrency ceiling, the
liquidity floor, and the strategy decision, in source order with short-circuit. -/

/-- Reason a discovery event is skipped before order submission. -/
inductive SkipReason where
  | notInSnipeList
  | hasPosition
  | maxPositionsReached
  | insufficientLiquidity
  | strategyDeclined
deriving DecidableEq, Repr

/-- Outcome of the buy-path gating. -/
inductive GateOutcome where
  | skip (reason : SkipReason)
  | proceed
deriving DecidableEq, Repr

/-- The ambient state and oracle answers consulted by the gates. -/
structure GateEnv where
  useSnipeList : Bool
  snipeList : List String
  positionMints : List String
  maxConcurrentPositions : Nat
  hasMinLiquidity : Bool
  strategyDecision : Bool
deriving Repr

/-- The free function `shouldBuy(mintAddress)` of `src/pumpswap-bot.ts`: with the
snipe list enabled, membership in the list; otherwise always true. -/
def shouldBuyCheck (useSnipeList : Bool) (snipeList : List String)
    (mintAddress : String) : Bool :=
  if useSnipeList then snipeList.contains mintAddress else true

/-- The gate sequence of `processPumpSwapPool`, in source order. -/
def processPoolGates (env : GateEnv) (mintAddress : String) : GateOutcome :=
  if shouldBuyCheck env.useSnipeList env.snipeList mintAddress = false then
    GateOutcome.skip SkipReason.notInSnipeList
  else if env.positionMints.contains mintAddress then
    GateOutcome.skip SkipReason.hasPosition
  else if env.maxConcurrentPositions ≤ env.positionMints.length then
    GateOutcome.skip SkipReason.maxPositionsReached
  else if env.hasMinLiquidity = false then
    GateOutcome.skip SkipReason.insufficientLiquidity
  else if env.strategyDecision = false then
    GateOutcome.skip SkipReason.strategyDeclined
  else GateOutcome.proceed

/-! ## Monitoring tick

From `monitorPositions` in `src/pumpswap-bot.ts`.  Per open position: price lookup
(skip on null/zero), strategy sell decision, pool re-fetch (skip on null), sell
submission (skip on null) and only then removal from `activePositions`. -/

/-- The external answers a monitoring tick can observe. -/
structure MonitorEnv where
  priceOf : String → Option ℚ
  sellDecision : Position → ℚ → Bool
  poolRefetch : String → Option PumpSwapPoolInfo
  sellResult : String → Nat → Option String

/-- One position's evaluation within a tick; `true` means the position is kept. -/
def monitorStep (env : MonitorEnv) (mintAddress : String) (position : Position) : Bool :=
  match env.priceOf mintAddress with
  | none => true
  | some currentPrice =>
    if currentPrice = 0 then true
    else if env.sellDecision position currentPrice = false then true
    else
      match env.poolRefetch position.poolId with
      | none => true
      | some poolInfo =>
        match env.sellResult poolInfo.poolId position.amount with
        | none => true
        | some _ => false

/-- A whole monitoring tick over the position book. -/
def monitorTick (env : MonitorEnv) (activePositions : List (String × Position)) :
    List (String × Position) :=
  activePositions.filter (fun entry => monitorStep env entry.1 entry.2)

/-- The guard chain of `monitorPositions` fully succeeding for a position: a usable
price, a sell decision, a re-fetched pool and a settlement signature. -/
def sellSettled (env : MonitorEnv) (mintAddress : String) (position : Position) : Prop :=
  ∃ p, env.priceOf mintAddress = some p ∧ p ≠ 0
    ∧ env.sellDecision position p = true
    ∧ ∃ poolInfo, env.poolRefetch position.poolId = some poolInfo
      ∧ ∃ sig, env.sellResult poolInfo.poolId position.amount = some sig

/-! ## Position lifecycle

The buy path of `processPumpSwapPool` after its gates: on a returned signature the
position is created from the post-buy `getCurrentPrice` read and the strategy's
position size, and inserted into `activePositions`; otherwise nothing changes.
Together with the monitoring tick this gives the reachable position books. -/

/-- `Map.set` on the book keyed by mint address. -/
def bookSet (book : List (String × Position)) (mintAddress : String)
    (position : Position) : List (String × Position) :=
  if book.any (fun e => e.1 == mintAddress) then
    book.map (fun e => if e.1 == mintAddress then (mintAddress, position) else e)
  else book ++ [(mintAddress, position)]

/-- An externally observable step of the engine: a buy attempt (with the oracle
results it saw) or a monitoring tick. -/
inductive BotEvent where
  | buyEvent (mintAddress : String) (poolInfo : PumpSwapPoolInfo)
      (freshPoolInfo : Option PumpSwapPoolInfo) (signature : Option String)
      (strategy : StrategyType) (now : Int)
  | tickEvent (env : MonitorEnv)

/-- Effect of one event on the position book, following the source's creation site:
`entryPrice` and `buyValue` are the post-buy `getCurrentPrice` read, `amount` is the
active strategy's position size. -/
def applyEvent (book : List (String × Position)) : BotEvent → List (String × Position)
  | BotEvent.buyEvent mintAddress poolInfo freshPoolInfo signature strategy now =>
    match signature with
    | none => book
    | some _ =>
      let positionSize := builtinPositionSize strategy poolInfo.quoteReserve
      let currentPrice := getCurrentPrice freshPoolInfo
      bookSet book mintAddress
        { mint := mintAddress
          poolId := poolInfo.poolId
          entryPrice := currentPrice
          amount := positionSize
          buyValue := currentPrice
          timestamp := now
          strategy := strategy }
  | BotEvent.tickEvent env => monitorTick env book

/-- The position book reached from the empty book by a sequence of events. -/
def applyEvents (book : List (String × Position)) (events : List BotEvent) :
    List (String × Position) :=
  events.foldl applyEvent book

/-! ## Concrete sample data used by witnesses and counterexamples -/

/-- A pool snapshot as the placeholder parser of `getPoolInfo` actually produces it:
reserves read as zero. -/
def samplePool : PumpSwapPoolInfo :=
  { poolId := "pool1"
    baseMint := "mintA"
    quoteMint := "wsol"
    baseDecimals := 9
    quoteDecimals := 9
    state := 2
    baseReserve := 0
    quoteReserve := 0
    lpSupply := 0
    createdAt := 0 }

/-- An ordinary open position. -/
def samplePosition : Position :=
  { mint := "mintA"
    poolId := "pool1"
    entryPrice := 1
    amount := 10000000
    buyValue := 1
    timestamp := 0
    strategy := StrategyType.momentum }

/-- The position created by the buy path when the post-buy price read fails:
entry price and buy value both zero. -/
def zeroPricePosition : Position :=
  { mint := "mintA"
    poolId := "pool1"
    entryPrice := 0
    amount := 10000000
    buyValue := 0
    timestamp := 0
    strategy := StrategyType.momentum }

/-- A policy whose every capability raises, for the fail-closed witnesses. -/
def throwingStrategy : TradingStrategy :=
  { shouldBuy := fun _ => Except.error "fault"
    shouldSell := fun _ _ => Except.error "fault"
    calculatePositionSize := fun _ => Except.error "fault" }

theorem runDiscovery_length (s : List String) (events : List String) :
    (runDiscovery s events).length = events.length := by
  induction events generalizing s with
  | nil => rfl
  | cons k rest ih => simp [runDiscovery, ih]

theorem runDiscovery_append (s : List String) (a b : List String) :
    runDiscovery s (a ++ b) = runDiscovery s a ++ runDiscovery (discoverState s a) b := by
  induction a generalizing s with
  | nil => rfl
  | cons k rest ih => simp [runDiscovery, discoverState, ih]

theorem mem_discoverState (s : List String) (events : List String) (P : String) :
    P ∈ discoverState s events ↔ P ∈ s ∨ P ∈ events := by
  induction events generalizing s with
  | nil => simp [discoverState]
  | cons k rest ih =>
    by_cases hk : k ∈ s
    · simp only [discoverState, admitPool, if_pos hk, ih]
      constructor
      · rintro (h | h)
        · exact Or.inl h
        · exact Or.inr (List.mem_cons_of_mem _ h)
      · rintro (h | h)
        · exact Or.inl h
        · rcases List.mem_cons.mp h with h | h
          · exact Or.inl (h ▸ hk)
          · exact Or.inr h
    · simp only [discoverState, admitPool, if_neg hk, ih]
      constructor
      · rintro (h | h)
        · rcases List.mem_cons.mp h with h | h
          · exact Or.inr (List.mem_cons.mpr (Or.inl h))
          · exact Or.inl h
        · exact Or.inr (List.mem_cons_of_mem _ h)
      · rintro (h | h)
        · exact Or.inl (List.mem_cons_of_mem _ h)
        · rcases List.mem_cons.mp h with h | h
          · exact Or.inl (List.mem_cons.mpr (Or.inl h))
          · exact Or.inr h

theorem runDiscovery_processed_count (s : List String) (events : List String) (P : String) :
    ((runDiscovery s events).filter (fun e => e.1 == P && e.2)).length
      = if P ∈ events ∧ P ∉ s then 1 else 0 := by
  induction events generalizing s with
  | nil => simp [runDiscovery]
  | cons k rest ih =>
    simp only [runDiscovery, List.filter_cons]
    by_cases hk : k ∈ s
    · rw [show admitPool s k = (false, s) from if_pos hk]
      rw [if_neg (by simp), ih s]
      by_cases hP : P ∈ s
      · simp [hP]
      · have hPk : ¬ P = k := fun h => hP (h ▸ hk)
        simp [hP, List.mem_cons, hPk]
    · rw [show admitPool s k = (true, k :: s) from if_neg hk]
      by_cases hPk : P = k
      · subst hPk
        rw [if_pos (by simp), List.length_cons, ih (P :: s)]
        simp [hk, List.mem_cons]
      · rw [if_neg (by simp [Ne.symm hPk]), ih (k :: s)]
        simp [List.mem_cons, hPk, hk]

/-- Claim C1: for every pool identifier P and every sequence of discovery events,
the pool-registry admit test (membership check on the `existingPools` set followed by
insert) yields true exactly once across any sequence of repeated deliveries of P within
one process run: the first delivery of P triggers processing, and every later delivery
of P triggers no processing. -/
theorem pool_registry_dedup_once (events : List String) (P : String) :
    (((runDiscovery [] events).filter (fun e => e.1 == P && e.2)).length
        = if P ∈ events then 1 else 0)
    ∧ (∀ pre post, events = pre ++ P :: post → P ∉ pre →
        (runDiscovery [] events).get? pre.length = some (P, true))
    ∧ (∀ pre post, events = pre ++ P :: post → P ∈ pre →
        (runDiscovery [] events).get? pre.length = some (P, false)) := by
  refine ⟨?_, ?_, ?_⟩
  · rw [runDiscovery_processed_count]
    simp
  · intro pre post hev hpre
    subst hev
    rw [runDiscovery_append, List.get?_append_right (by rw [runDiscovery_length])]
    rw [runDiscovery_length]
    simp only [Nat.sub_self]
    have hadm : (admitPool (discoverState [] pre) P).1 = true := by
      have : P ∉ discoverState [] pre := by
        rw [mem_discoverState]
        simp [hpre]
      simp [admitPool, this]
    simp [runDiscovery, hadm]
  · intro pre post hev hpre
    subst hev
    rw [runDiscovery_append, List.get?_append_right (by rw [runDiscovery_length])]
    rw [runDiscovery_length]
    simp only [Nat.sub_self]
    have hadm : (admitPool (discoverState [] pre) P).1 = false := by
      have : P ∈ discoverState [] pre := by
        rw [mem_discoverState]
        simp [hpre]
      simp [admitPool, this]
    simp [runDiscovery, hadm]

/-- Witness for C1 at a concrete redelivered sequence: with deliveries
["a", "b", "a"] the first delivery of "a" processes and the redelivery does not. -/
theorem pool_registry_dedup_once_witness :
    (runDiscovery [] ["a", "b", "a"]).get? 0 = some ("a", true)
    ∧ (runDiscovery [] ["a", "b", "a"]).get? 2 = some ("a", false) :=
  ⟨(pool_registry_dedup_once ["a", "b", "a"] "a").2.1 [] ["b", "a"] rfl (by simp),
   (pool_registry_dedup_once ["a", "b", "a"] "a").2.2 ["a", "b"] [] rfl (by simp)⟩

/-- Counterexample to C4 as stated: with the snipe list enabled and empty, a token that
already holds an open position is skipped with the not-in-snipe-list reason, not the
has-position reason — the source consults the allow-list before the position check. -/
theorem buy_gate_order_counterexample :
    processPoolGates
        { useSnipeList := true
          snipeList := []
          positionMints := ["mintA"]
          maxConcurrentPositions := 5
          hasMinLiquidity := true
          strategyDecision := true } "mintA"
      = GateOutcome.skip SkipReason.notInSnipeList
    ∧ processPoolGates
        { useSnipeList := true
          snipeList := []
          positionMints := ["mintA"]
          maxConcurrentPositions := 5
          hasMinLiquidity := true
          strategyDecision := true } "mintA"
      ≠ GateOutcome.skip SkipReason.hasPosition := by
  constructor <;> decide

/-- Claim C4, amended: the buy-path gates short-circuit in exactly the order
(1) allow-list active and token absent, (2) token already has an open position,
(3) open-position count at or above the concurrency ceiling, (4) snapshot liquidity
below the floor, (5) strategy declines — each skip reason occurs precisely when its
gate fails and every earlier gate passed; and with ceiling 2 and 2 open positions a
third distinct token is skipped at the ceiling gate regardless of the strategy's
decision. -/
theorem buy_gate_order (env : GateEnv) (mint : String) :
    (processPoolGates env mint = GateOutcome.skip SkipReason.notInSnipeList ↔
      shouldBuyCheck env.useSnipeList env.snipeList mint = false)
    ∧ (processPoolGates env mint = GateOutcome.skip SkipReason.hasPosition ↔
      shouldBuyCheck env.useSnipeList env.snipeList mint = true
        ∧ env.positionMints.contains mint = true)
    ∧ (processPoolGates env mint = GateOutcome.skip SkipReason.maxPositionsReached ↔
      shouldBuyCheck env.useSnipeList env.snipeList mint = true
        ∧ env.positionMints.contains mint = false
        ∧ env.maxConcurrentPositions ≤ env.positionMints.length)
    ∧ (processPoolGates env mint = GateOutcome.skip SkipReason.insufficientLiquidity ↔
      shouldBuyCheck env.useSnipeList env.snipeList mint = true
        ∧ env.positionMints.contains mint = false
        ∧ env.positionMints.length < env.maxConcurrentPositions
        ∧ env.hasMinLiquidity = false)
    ∧ (processPoolGates env mint = GateOutcome.skip SkipReason.strategyDeclined ↔
      shouldBuyCheck env.useSnipeList env.snipeList mint = true
        ∧ env.positionMints.contains mint = false
        ∧ env.positionMints.length < env.maxConcurrentPositions
        ∧ env.hasMinLiquidity = true
        ∧ env.strategyDecision = false)
    ∧ (processPoolGates env mint = GateOutcome.proceed ↔
      shouldBuyCheck env.useSnipeList env.snipeList mint = true
        ∧ env.positionMints.contains mint = false
        ∧ env.positionMints.length < env.maxConcurrentPositions
        ∧ env.hasMinLiquidity = true
        ∧ env.strategyDecision = true)
    ∧ (env.maxConcurrentPositions = 2 → env.positionMints.length = 2 →
        shouldBuyCheck env.useSnipeList env.snipeList mint = true →
        env.positionMints.contains mint = false →
        processPoolGates env mint = GateOutcome.skip SkipReason.maxPositionsReached) := by
  unfold processPoolGates
  split_ifs with h1 h2 h3 h4 h5 <;> simp_all <;> omega

/-- Witness for C4 at ceiling 2 with 2 open positions: a third distinct token is
skipped at the ceiling gate. -/
theorem buy_gate_order_witness :
    processPoolGates
        { useSnipeList := false
          snipeList := []
          positionMints := ["m1", "m2"]
          maxConcurrentPositions := 2
          hasMinLiquidity := true
          strategyDecision := true } "m3"
      = GateOutcome.skip SkipReason.maxPositionsReached :=
  (buy_gate_order
      { useSnipeList := false
        snipeList := []
        positionMints := ["m1", "m2"]
        maxConcurrentPositions := 2
        hasMinLiquidity := true
        strategyDecision := true } "m3").2.2.2.2.2.2
    rfl rfl (by decide) (by decide)

/-- Claim C5: for every pool snapshot, position and current price, if the active
strategy's shouldBuy or shouldSell raises, the manager returns false and never
propagates; if calculatePositionSize raises, the manager returns the minimum default
size 10_000_000.  (The manager functions are total, so no exception escapes.) -/
theorem strategy_manager_fail_closed (s : TradingStrategy)
    (poolInfo : PumpSwapPoolInfo) (position : Position) (currentPrice : ℚ) :
    (∀ e, s.shouldBuy poolInfo = Except.error e →
      managerShouldBuy (some s) poolInfo = false)
    ∧ (∀ e, s.shouldSell position currentPrice = Except.error e →
      managerShouldSell (some s) position currentPrice = false)
    ∧ (∀ e, s.calculatePositionSize poolInfo = Except.error e →
      managerCalculatePositionSize (some s) poolInfo = 10000000) := by
  refine ⟨?_, ?_, ?_⟩ <;> intro e h <;>
    simp [managerShouldBuy, managerShouldSell, managerCalculatePositionSize, h]

/-- Witness for C5: a policy raising on every capability is observed fail-closed at a
concrete pool and position. -/
theorem strategy_manager_fail_closed_witness :
    managerShouldBuy (some throwingStrategy) samplePool = false
    ∧ managerShouldSell (some throwingStrategy) samplePosition 1 = false
    ∧ managerCalculatePositionSize (some throwingStrategy) samplePool = 10000000 :=
  ⟨(strategy_manager_fail_closed throwingStrategy samplePool samplePosition 1).1 "fault" rfl,
   (strategy_manager_fail_closed throwingStrategy samplePool samplePosition 1).2.1 "fault" rfl,
   (strategy_manager_fail_closed throwingStrategy samplePool samplePosition 1).2.2 "fault" rfl⟩

theorem monitorStep_eq_false_iff (env : MonitorEnv) (mintAddress : String)
    (position : Position) :
    monitorStep env mintAddress position = false ↔ sellSettled env mintAddress position := by
  unfold monitorStep sellSettled
  cases hp : env.priceOf mintAddress with
  | none => simp [hp]
  | some p =>
    by_cases hz : p = 0
    · simp [hz]
    · by_cases hd : env.sellDecision position p = false
      · simp [hz, hd]
      · cases hr : env.poolRefetch position.poolId with
        | none => simp [hz, hd, hr]
        | some pool =>
          cases hs : env.sellResult pool.poolId position.amount with
          | none => simp [hz, hd, hr, hs]
          | some sig =>
            simp [hz, hd, hr, hs]

/-- Claim C6: during a monitoring tick, a position is removed from the book if and
only if the whole sell chain settles (usable price, sell decision, re-fetched pool and
a settlement signature); on any failure the position remains present unchanged, and
the tick never duplicates entries (the resulting book is a sublist of the old one). -/
theorem monitor_tick_sell_safety (env : MonitorEnv)
    (book : List (String × Position)) (mintAddress : String) (position : Position)
    (hmem : (mintAddress, position) ∈ book) :
    ((mintAddress, position) ∉ monitorTick env book ↔ sellSettled env mintAddress position)
    ∧ (¬ sellSettled env mintAddress position → (mintAddress, position) ∈ monitorTick env book)
    ∧ (monitorTick env book).Sublist book := by
  have hfilter : (mintAddress, position) ∈ monitorTick env book ↔
      monitorStep env mintAddress position = true := by
    unfold monitorTick
    rw [List.mem_filter]
    simp [hmem]
  refine ⟨?_, ?_, List.filter_sublist _⟩
  · rw [hfilter, ← monitorStep_eq_false_iff]
    cases monitorStep env mintAddress position <;> simp
  · intro hns
    rw [hfilter]
    cases h : monitorStep env mintAddress position
    · exact absurd ((monitorStep_eq_false_iff env mintAddress position).mp h) hns
    · rfl

/-- Witness for C6: with every oracle failing (no price, no decision, no pool, no
signature), a concrete position survives the tick. -/
theorem monitor_tick_sell_safety_witness :
    ("mintA", samplePosition) ∈ monitorTick
      { priceOf := fun _ => none
        sellDecision := fun _ _ => false
        poolRefetch := fun _ => none
        sellResult := fun _ _ => none }
      [("mintA", samplePosition)] :=
  (monitor_tick_sell_safety
      { priceOf := fun _ => none
        sellDecision := fun _ _ => false
        poolRefetch := fun _ => none
        sellResult := fun _ _ => none }
      [("mintA", samplePosition)] "mintA" samplePosition (by simp)).2.1
    (by simp [sellSettled])

theorem mem_bookSet (book : List (String × Position)) (mintAddress : String)
    (position : Position) (e : String × Position)
    (he : e ∈ bookSet book mintAddress position) :
    e ∈ book ∨ e = (mintAddress, position) := by
  unfold bookSet at he
  split at he
  · rcases List.mem_map.mp he with ⟨y, hy, hfy⟩
    by_cases hk : y.1 == mintAddress
    · right
      rw [if_pos hk] at hfy
      exact hfy.symm
    · left
      rw [if_neg hk] at hfy
      exact hfy ▸ hy
  · rcases List.mem_append.mp he with h | h
    · exact Or.inl h
    · exact Or.inr (List.mem_singleton.mp h)

theorem builtinPositionSize_min (strategy : StrategyType) (quoteReserve : Nat) :
    10000000 ≤ builtinPositionSize strategy quoteReserve := by
  cases strategy <;>
    simp only [builtinPositionSize, momentumCalculatePositionSize,
      volumeCalculatePositionSize, liquidityCalculatePositionSize] <;>
    (try split_ifs) <;> omega

theorem decimalAdjustment_pos (quoteDecimals baseDecimals : Nat) :
    0 < decimalAdjustment quoteDecimals baseDecimals := by
  unfold decimalAdjustment
  split <;> positivity

theorem getCurrentPrice_nonneg (freshPoolInfo : Option PumpSwapPoolInfo) :
    0 ≤ getCurrentPrice freshPoolInfo := by
  cases freshPoolInfo with
  | none => exact le_refl 0
  | some p =>
    simp only [getCurrentPrice]
    by_cases hb : p.baseReserve = 0
    · simp [hb]
    · rw [if_neg hb]
      exact mul_nonneg (div_nonneg (Nat.cast_nonneg _) (Nat.cast_nonneg _))
        (le_of_lt (decimalAdjustment_pos _ _))

theorem applyEvents_invariant (events : List BotEvent) (book : List (String × Position))
    (hinv : ∀ e ∈ book, 0 < e.2.amount ∧ 0 ≤ e.2.entryPrice) :
    ∀ e ∈ applyEvents book events, 0 < e.2.amount ∧ 0 ≤ e.2.entryPrice := by
  induction events generalizing book with
  | nil => exact hinv
  | cons ev rest ih =>
    simp only [applyEvents, List.foldl_cons]
    refine ih (applyEvent book ev) ?_
    intro e he
    cases ev with
    | buyEvent mintAddress poolInfo freshPoolInfo signature strategy now =>
      cases signature with
      | none => exact hinv e he
      | some sig =>
        simp only [applyEvent] at he
        rcases mem_bookSet _ _ _ _ he with h | h
        · exact hinv e h
        · subst h
          refine ⟨?_, getCurrentPrice_nonneg freshPoolInfo⟩
          have := builtinPositionSize_min strategy poolInfo.quoteReserve
          simp only []
          omega
    | tickEvent env =>
      simp only [applyEvent, monitorTick] at he
      exact hinv e (List.mem_of_mem_filter he)

/-- Counterexample to C2 as stated: a buy whose settlement succeeds but whose post-buy
price read fails (the re-fetch returns null) creates a position with entry price 0 in
the book, refuting entryPrice > 0 at a reachable state. -/
theorem position_book_invariant_counterexample :
    ("mintA", zeroPricePosition) ∈ applyEvents []
        [BotEvent.buyEvent "mintA" samplePool none (some "sig") StrategyType.momentum 0]
    ∧ ¬ 0 < zeroPricePosition.entryPrice := by
  constructor
  · simp [applyEvents, applyEvent, bookSet, builtinPositionSize,
      momentumCalculatePositionSize, getCurrentPrice, zeroPricePosition, samplePool]
  · simp [zeroPricePosition]

/-- Claim C2, amended: at every reachable state of the position book, every position
has amount strictly greater than 0, and entry price at least 0 — but not strictly
greater: when the post-buy price read fails or the refreshed pool has a zero base
reserve, the created position carries entry price exactly 0. -/
theorem position_book_invariant (events : List BotEvent) (mintAddress : String)
    (position : Position)
    (hmem : (mintAddress, position) ∈ applyEvents [] events) :
    0 < position.amount ∧ 0 ≤ position.entryPrice :=
  applyEvents_invariant events [] (by simp) (mintAddress, position) hmem

/-- Witness for C2 (amended) at the concrete reachable zero-price position. -/
theorem position_book_invariant_witness :
    0 < zeroPricePosition.amount ∧ 0 ≤ zeroPricePosition.entryPrice :=
  position_book_invariant
    [BotEvent.buyEvent "mintA" samplePool none (some "sig") StrategyType.momentum 0]
    "mintA" zeroPricePosition
    (by simp [applyEvents, applyEvent, bookSet, builtinPositionSize,
      momentumCalculatePositionSize, getCurrentPrice, zeroPricePosition, samplePool])

/-- Counterexample to C3 as stated: at reserveIn = reserveOut = 1_000_000_000 and
amountIn = 100_000_000 with the 0.25% fee, the source's computation yields exactly
9.297568%, which is more than 0.2 away from the claimed ≈ 9.06% — far beyond
rounding. -/
theorem price_impact_value_counterexample :
    liquidityCalculatePriceImpact 100000000 1000000000 1000000000 = 9297568 / 1000000
    ∧ ¬ |liquidityCalculatePriceImpact 100000000 1000000000 1000000000 - 906 / 100|
        ≤ 1 / 5 := by
  have hdiv : (100000000 * 9975 * 1000000000 : Nat)
      / (1000000000 * 10000 + 100000000 * 9975) = 90702432 := by rfl
  have hq : (100000000 * 1000000000 : Nat) / 1000000000 = 100000000 := by rfl
  have h : liquidityCalculatePriceImpact 100000000 1000000000 1000000000
      = 9297568 / 1000000 := by
    unfold liquidityCalculatePriceImpact
    rw [if_neg (by norm_num)]
    show (((100000000 * 1000000000 / 1000000000 : Nat) : ℚ)
        - ((100000000 * 9975 * 1000000000
            / (1000000000 * 10000 + 100000000 * 9975) : Nat) : ℚ))
        / ((100000000 * 1000000000 / 1000000000 : Nat) : ℚ) * 100 = 9297568 / 1000000
    rw [hdiv, hq]
    norm_num
  refine ⟨h, ?_⟩
  rw [h, abs_of_pos (by norm_num)]
  norm_num

/-- Claim C3, amended: for reserveIn = 1_000_000_000, reserveOut = 1_000_000_000,
amountIn = 100_000_000, fee 0.25% (9975/10000), the price-impact computation returns
approximately 9.30 percent — exactly 9.297568. -/
theorem price_impact_value :
    liquidityCalculatePriceImpact 100000000 1000000000 1000000000 = 9297568 / 1000000
    ∧ |liquidityCalculatePriceImpact 100000000 1000000000 1000000000 - 93 / 10|
        < 1 / 100 := by
  have hdiv : (100000000 * 9975 * 1000000000 : Nat)
      / (1000000000 * 10000 + 100000000 * 9975) = 90702432 := by rfl
  have hq : (100000000 * 1000000000 : Nat) / 1000000000 = 100000000 := by rfl
  have h : liquidityCalculatePriceImpact 100000000 1000000000 1000000000
      = 9297568 / 1000000 := by
    unfold liquidityCalculatePriceImpact
    rw [if_neg (by norm_num)]
    show (((100000000 * 1000000000 / 1000000000 : Nat) : ℚ)
        - ((100000000 * 9975 * 1000000000
            / (1000000000 * 10000 + 100000000 * 9975) : Nat) : ℚ))
        / ((100000000 * 1000000000 / 1000000000 : Nat) : ℚ) * 100 = 9297568 / 1000000
    rw [hdiv, hq]
    norm_num
  refine ⟨h, ?_⟩
  rw [h, abs_of_neg (by norm_num)]
  norm_num

/-- Claim C7: with the price history after appending the observed price (window
bounded to the 5 most recent points), Momentum.shouldBuy returns true iff the
oldest-to-latest change reaches the momentum threshold and the last step is strictly
positive; with fewer than 2 entries, an unavailable price, or a zero (falsy) price it
returns false. -/
theorem momentum_should_buy_spec (momentumThreshold : ℚ) (history : List ℚ) (c : ℚ)
    (hc : ¬ c = 0) (h2 : 2 ≤ (updateHistory 5 history c).length) :
    ((momentumShouldBuy momentumThreshold 5 history (some c)).1 = true ↔
      ((c - (updateHistory 5 history c).headD 0)
            / (updateHistory 5 history c).headD 0 * 100 ≥ momentumThreshold
        ∧ (c - (updateHistory 5 history c).getD ((updateHistory 5 history c).length - 2) 0)
            / (updateHistory 5 history c).getD ((updateHistory 5 history c).length - 2) 0
            * 100 > 0))
    ∧ (∀ history2 : List ℚ, (updateHistory 5 history2 c).length < 2 →
        (momentumShouldBuy momentumThreshold 5 history2 (some c)).1 = false)
    ∧ (momentumShouldBuy momentumThreshold 5 history none).1 = false
    ∧ (momentumShouldBuy momentumThreshold 5 history (some 0)).1 = false := by
  refine ⟨?_, ?_, rfl, by simp [momentumShouldBuy]⟩
  · simp only [momentumShouldBuy, if_neg hc]
    rw [if_neg (Nat.not_lt.mpr h2)]
    split_ifs with hm hr
    · exact iff_of_true rfl ⟨hm, hr⟩
    · exact iff_of_false (by simp) (fun hand => hr hand.2)
    · exact iff_of_false (by simp) (fun hand => hm hand.1)
  · intro history2 hlt
    simp only [momentumShouldBuy, if_neg hc]
    rw [if_pos hlt]

/-- Witness for C7: with recorded history [1] and an observed price of 6/5 (a 20%
rise), the momentum gate (threshold 10) fires and shouldBuy returns true. -/
theorem momentum_should_buy_spec_witness :
    (momentumShouldBuy 10 5 [1] (some (6 / 5))).1 = true :=
  ((momentum_should_buy_spec 10 [1] (6 / 5) (by norm_num)
      (by simp [updateHistory])).1).mpr
    (by norm_num [updateHistory])

/-- Claim C8: for Momentum with takeProfit = 50 and stopLoss = 30, a position with
entry value 1.0 sells at current price 1.5 (profit exactly 50% meets take-profit) and
does not sell at 1.49 when no other trigger condition is met. -/
theorem momentum_take_profit_trigger :
    momentumShouldSell 50 30 [] samplePosition (3 / 2) = true
    ∧ momentumShouldSell 50 30 [] samplePosition (149 / 100) = false := by
  constructor
  · norm_num [momentumShouldSell, samplePosition]
  · norm_num [momentumShouldSell, samplePosition]

/-- Counterexample to C9 as stated: Momentum's position size has no upper clamp — at a
quote reserve of 10^13 it returns 10^11 lamports, above every configured maximum in
the code base (Volume's 10^9, Liquidity's 5·10^8, and the 10-SOL = 10^10 trading
limit constant). -/
theorem position_size_unbounded_counterexample :
    momentumCalculatePositionSize 10000000000000 = 100000000000
    ∧ 10000000000 < momentumCalculatePositionSize 10000000000000
    ∧ 1000000000 < momentumCalculatePositionSize 10000000000000
    ∧ 500000000 < momentumCalculatePositionSize 10000000000000 := by
  refine ⟨?_, ?_, ?_, ?_⟩ <;> decide

/-- Claim C9, amended: each strategy's position size is a deterministic function of the
quote reserve alone; Volume stays within [10^7, 10^9], Liquidity within
[10^7, 5·10^8], and Momentum is floored at 10^7 but has no upper clamp. -/
theorem position_size_clamped (poolInfo : PumpSwapPoolInfo) :
    (10000000 ≤ volumeCalculatePositionSize poolInfo.quoteReserve
      ∧ volumeCalculatePositionSize poolInfo.quoteReserve ≤ 1000000000)
    ∧ (10000000 ≤ liquidityCalculatePositionSize poolInfo.quoteReserve
      ∧ liquidityCalculatePositionSize poolInfo.quoteReserve ≤ 500000000)
    ∧ 10000000 ≤ momentumCalculatePositionSize poolInfo.quoteReserve := by
  simp only [volumeCalculatePositionSize, liquidityCalculatePositionSize,
    momentumCalculatePositionSize]
  split_ifs <;> omega

/-- Claim C10: a position whose recorded buy value is 0 (falsy), or an evaluation at a
current price of exactly 0, makes shouldSell of all three strategies return false
before any take-profit, stop-loss, reversal, volume, or time-based trigger is
evaluated. -/
theorem zero_value_never_sells (takeProfitPercent stopLossPercent volumeDeclineThreshold : ℚ)
    (priceHistory : List ℚ) (position : Position) (currentPrice : ℚ)
    (tokenData : Option TokenData) (now : Int)
    (h : position.buyValue = 0 ∨ currentPrice = 0) :
    momentumShouldSell takeProfitPercent stopLossPercent priceHistory position currentPrice
        = false
    ∧ volumeShouldSell takeProfitPercent stopLossPercent volumeDeclineThreshold position
        currentPrice tokenData = false
    ∧ liquidityShouldSell takeProfitPercent stopLossPercent position currentPrice now
        = false := by
  unfold momentumShouldSell volumeShouldSell liquidityShouldSell
  refine ⟨?_, ?_, ?_⟩ <;> rw [if_pos h]

/-- Witness for C10 at a concrete zero-buy-value position and nonzero price. -/
theorem zero_value_never_sells_witness :
    momentumShouldSell 50 30 [] zeroPricePosition 2 = false
    ∧ volumeShouldSell 50 30 50 zeroPricePosition 2 none = false
    ∧ liquidityShouldSell 30 20 zeroPricePosition 2 0 = false :=
  zero_value_never_sells 50 30 50 [] zeroPricePosition 2 none 0 (Or.inl rfl)

end PumpBot
